import Mathlib

/-!
Shallow embedding of the binder-design pipeline driver (protein_design.py):
the Structure_Prediction results dictionary, the AF2 stdout parser, the
Rosetta score-file parser of the ddg method, the design filter, and the
control flow of the stage wrappers.  Machine floats of the source are
modelled as rationals; Python dicts as association lists in insertion
order; a raised-and-uncaught exception as an error value.
-/

namespace BinderDesign

/-- The opening curly brace character, written by code point. -/
def lbrace : Char := Char.ofNat 123

/-- The closing curly brace character, written by code point. -/
def rbrace : Char := Char.ofNat 125

/-- The single-quote character, written by code point. -/
def squote : Char := Char.ofNat 39

/-- ASCII whitespace as removed by Python str.strip and str.split with no
arguments (space, tab, newline, carriage return, vertical tab, form feed). -/
def pyWs (c : Char) : Bool :=
  c == ' ' || c == '\t' || c == '\n' || c == '\r' || c == Char.ofNat 11 || c == Char.ofNat 12

/-- Python str.strip on a character list: drop whitespace from both ends. -/
def stripChars (l : List Char) : List Char :=
  ((l.dropWhile pyWs).reverse.dropWhile pyWs).reverse

/-- Python str.split with no arguments: split on runs of whitespace,
producing no empty tokens.  Accumulator holds the current token reversed. -/
def splitWsAux : List Char → List Char → List (List Char)
  | [], acc => if acc.isEmpty then [] else [acc.reverse]
  | c :: rest, acc =>
    if pyWs c then
      if acc.isEmpty then splitWsAux rest []
      else acc.reverse :: splitWsAux rest []
    else splitWsAux rest (c :: acc)

/-- Python str.split with no arguments, on a character list. -/
def splitWsChars (l : List Char) : List (List Char) :=
  splitWsAux l []

/-- Value of a nonempty all-digit character list, most significant first;
none as soon as a non-digit appears. -/
def digitsToNatAux : List Char → Nat → Option Nat
  | [], acc => some acc
  | c :: rest, acc =>
    if c.isDigit then digitsToNatAux rest (acc * 10 + (c.toNat - 48)) else none

/-- Unsigned part of a Python float literal, as a numerator and
denominator pair: digits, or digits around a single decimal point with at
least one digit present. -/
def parseUnsignedParts (l : List Char) : Option (Nat × Nat) :=
  match l.splitOn '.' with
  | [d] => if d.isEmpty then none else (digitsToNatAux d 0).map (fun n => (n, 1))
  | [a, b] =>
    if a.isEmpty && b.isEmpty then none
    else
      match digitsToNatAux a 0, digitsToNatAux b 0 with
      | some ai, some bi => some (ai * 10 ^ b.length + bi, 10 ^ b.length)
      | _, _ => none
  | _ => none

/-- Python float() restricted to plain decimal literals with an optional
sign, which is the shape of the numeric tokens the pipeline parses; any
other token is a conversion failure (float() raises ValueError). -/
def pyFloatChars (l : List Char) : Option ℚ :=
  match l with
  | [] => none
  | c :: rest =>
    if c == '-' then (parseUnsignedParts rest).map (fun p => Rat.divInt (-(p.1 : Int)) p.2)
    else if c == '+' then (parseUnsignedParts rest).map (fun p => Rat.divInt p.1 p.2)
    else (parseUnsignedParts (c :: rest)).map (fun p => Rat.divInt p.1 p.2)

/-- The exact rational n / d, written so that the kernel evaluates it;
used to state the decimal constants of the specification. -/
def dec (n : Int) (d : Nat) : ℚ := Rat.divInt n d

/-- A design record: a Python dict from metric name to numeric value,
modelled as an association list in insertion order. -/
abbrev Record := List (String × ℚ)

/-- Python dict assignment d[k] = v on a record: replace the value in place
if the key is present, otherwise append the new pair at the end. -/
def dictSet (r : Record) (k : String) (v : ℚ) : Record :=
  if r.any (fun p => p.1 == k) then
    r.map (fun p => if p.1 == k then (k, v) else p)
  else r ++ [(k, v)]

/-- The self.results dict of Structure_Prediction: design name to record. -/
abbrev Results := List (String × Record)

/-- Python statement results[d][k] = v: none models the KeyError raised
when d is not a key of results; otherwise the record of d is updated. -/
def resultsSet (rs : Results) (d : String) (k : String) (v : ℚ) : Option Results :=
  match rs.lookup d with
  | none => none
  | some _ =>
    some (rs.map (fun p => if p.1 == d then (p.1, dictSet p.2 k v) else p))

/-- Structure_Prediction.results_dict (source lines 266-268): one empty
record per requested design index, keyed design_0 .. design_(n-1). -/
def results_dict (design_num : Nat) : Results :=
  (List.range design_num).map (fun index => (s!"design_{index}", ([] : Record)))

/-- The Structure_Prediction object: configuration fields of its init
together with the results dict it creates. -/
structure Structure_Prediction where
  inputs : String
  outputs : String
  temp_dir : String
  executable : String
  design_num : Nat
  results : Results
deriving DecidableEq

/-- Structure_Prediction.__init__ (source lines 257-264): stores the
configuration and builds the results dict via results_dict. -/
def Structure_Prediction.init (input_folder output_folder temp_dir executable : String)
    (design_num : Nat) : Structure_Prediction :=
  { inputs := input_folder, outputs := output_folder, temp_dir := temp_dir,
    executable := executable, design_num := design_num,
    results := results_dict design_num }

/-- The per-design decision of the try block of filter_designs (source
lines 497-507).  A KeyError from a missing metric key is caught by the
except clause, which continues to the next design, so every failure path
collapses to the design not being appended; lookups and comparisons follow
the evaluation order of the source, including short-circuit of and. -/
def passes_filter (r : Record) : Bool :=
  match r.lookup "plddt_binder" with
  | none => false
  | some plddt =>
    if 80 < plddt then
      match r.lookup "pae_interaction" with
      | none => false
      | some pae =>
        if pae < 10 then
          match r.lookup "binder_aligned_rmsd" with
          | none => false
          | some rmsd =>
            if rmsd < 1 then
              match r.lookup "ddg" with
              | some ddg => decide (ddg < -40)
              | none => true
            else false
        else false
    else false

/-- The loop of filter_designs (source lines 496-507): walk the results
dict in order, incrementing num_designs and appending the design id for
each passing design. -/
def filter_designs_loop : List (String × Record) → Nat → List String → Nat × List String
  | [], num_designs, design_id => (num_designs, design_id)
  | (design, r) :: rest, num_designs, design_id =>
    if passes_filter r then
      filter_designs_loop rest (num_designs + 1) (design_id ++ [design])
    else
      filter_designs_loop rest num_designs design_id

/-- Structure_Prediction.filter_designs (source lines 489-512): returns
the logged triple of passing count, rate denominator (self.design_num, the
requested count) and the ordered passing ids.  The method only reads
self.results; it performs no assignment to it. -/
def filter_designs (sp : Structure_Prediction) : Nat × Nat × List String :=
  let out := filter_designs_loop sp.results 0 []
  (out.1, sp.design_num, out.2)

/-- filter_designs as a state transformer: the method leaves the object
unchanged (no field of self is written anywhere in its body) and produces
the logged triple. -/
def filter_designs_run (sp : Structure_Prediction) :
    Structure_Prediction × (Nat × Nat × List String) :=
  (sp, filter_designs sp)

/-- Attempt of the regex design_ followed by digits at the head of the
character list: the literal design_ then a maximal nonempty digit run. -/
def matchDesignAt (l : List Char) : Option (List Char) :=
  if l.take 7 = "design_".data then
    let digits := (l.drop 7).takeWhile Char.isDigit
    if digits.isEmpty then none else some (l.take 7 ++ digits)
  else none

/-- re.search for the pattern design_ plus digits (source line 326-327):
the leftmost match in the line, returned as the matched substring. -/
def find_design_token : List Char → Option String
  | [] => none
  | c :: rest =>
    match matchDesignAt (c :: rest) with
    | some m => some (String.mk m)
    | none => find_design_token rest

/-- The dict-line test of source line 333: the stripped line starts with
an opening brace and ends with a closing brace. -/
def is_dict_line (stripped : List Char) : Bool :=
  match stripped with
  | [] => false
  | c :: rest => c == lbrace && (c :: rest).getLast (by simp) == rbrace

/-- One entry of a flat Python dict literal: a single-quoted key, a colon,
and a numeric literal.  Models what eval produces for the metric lines the
AF2 script prints; anything else is treated as an evaluation failure. -/
def parseDictEntry (l : List Char) : Option (String × ℚ) :=
  match stripChars l with
  | [] => none
  | c :: rest =>
    if c == squote then
      let key := rest.takeWhile (fun x => x ≠ squote)
      match rest.drop key.length with
      | [] => none
      | c2 :: rest2 =>
        if c2 == squote then
          match stripChars rest2 with
          | ':' :: rest3 =>
            (pyFloatChars (stripChars rest3)).map (fun v => (String.mk key, v))
          | _ => none
        else none
    else none

/-- eval of a dict literal string (source line 335), modelled for flat
dicts with single-quoted keys and numeric values: strip the outer braces,
split the inside on commas, and parse each entry.  none models eval
raising, or producing a value that is not such a dict. -/
def parse_py_dict (stripped : List Char) : Option (List (String × ℚ)) :=
  match stripped with
  | [] => none
  | c :: rest =>
    if c == lbrace && (c :: rest).getLast (by simp) == rbrace then
      let inner := rest.dropLast
      if (stripChars inner).isEmpty then some []
      else (inner.splitOn ',').mapM parseDictEntry
    else none

/-- State of the stdout-parsing loop of af2_initial_guess: the local
variable design_number (unbound until the first id line, persisting across
iterations) and self.results. -/
structure AF2ParseState where
  design_number : Option String
  results : Results
deriving DecidableEq

/-- Outcome of processing stdout lines: ok with the final state, or err
with the state at the moment an exception is raised (mutations made before
the exception persist, as they do on the Python object). -/
inductive ParseOutcome where
  | ok (st : AF2ParseState)
  | err (st : AF2ParseState) (msg : String)
deriving DecidableEq

/-- One iteration of the loop of source lines 322-338.  The line is
stripped; a design token match rebinds design_number; if the stripped line
is brace-delimited, the dict string is evaluated and the three metrics are
assigned one statement at a time, each statement evaluating its right-hand
side (KeyError if the parsed dict lacks the metric), then the subscript
design_number (NameError if still unbound), then the results subscript
(KeyError if the id is not a results key). -/
def af2_process_line (st : AF2ParseState) (line : String) : ParseOutcome :=
  let stripped_line := stripChars line.data
  let design_number :=
    match find_design_token stripped_line with
    | some m => some m
    | none => st.design_number
  if is_dict_line stripped_line then
    match parse_py_dict stripped_line with
    | none => .err ⟨design_number, st.results⟩ "eval failed"
    | some parsed_dict =>
      match parsed_dict.lookup "plddt_binder" with
      | none => .err ⟨design_number, st.results⟩ "KeyError: plddt_binder"
      | some v1 =>
        match design_number with
        | none => .err ⟨design_number, st.results⟩ "NameError: design_number"
        | some d =>
          match resultsSet st.results d "plddt_binder" v1 with
          | none => .err ⟨design_number, st.results⟩ "KeyError: results"
          | some r1 =>
            match parsed_dict.lookup "pae_interaction" with
            | none => .err ⟨design_number, r1⟩ "KeyError: pae_interaction"
            | some v2 =>
              match resultsSet r1 d "pae_interaction" v2 with
              | none => .err ⟨design_number, r1⟩ "KeyError: results"
              | some r2 =>
                match parsed_dict.lookup "binder_aligned_rmsd" with
                | none => .err ⟨design_number, r2⟩ "KeyError: binder_aligned_rmsd"
                | some v3 =>
                  match resultsSet r2 d "binder_aligned_rmsd" v3 with
                  | none => .err ⟨design_number, r2⟩ "KeyError: results"
                  | some r3 => .ok ⟨design_number, r3⟩
  else
    .ok ⟨design_number, st.results⟩

/-- The whole stdout-parsing loop: lines are processed in order and the
first raised exception aborts the loop (it propagates to the enclosing
except clause of the method). -/
def af2_parse_lines (st : AF2ParseState) : List String → ParseOutcome
  | [] => .ok st
  | line :: rest =>
    match af2_process_line st line with
    | .ok st1 => af2_parse_lines st1 rest
    | .err st1 msg => .err st1 msg

/-- Observable actions of a stage wrapper, in program order. -/
inductive Effect where
  | remove_checkpoint
  | remove_temp_dir
  | copytree
  | launch (cmd : List String)
  | log (msg : String)
  | terminate
deriving DecidableEq

/-- The Sequence_Gen object of the source: the four folder and executable
fields stored by its init. -/
structure Sequence_Gen where
  inputs : String
  outputs : String
  temp_dir : String
  executable : String
deriving DecidableEq

/-- The conda run command built by sequence_design (source lines 204-221). -/
def Sequence_Gen.command (sg : Sequence_Gen) (relax_cycles seqs_per_struct : Nat)
    (temperature : String) : List String :=
  ["conda", "run", "-n", "binder_design", "--cwd", sg.temp_dir,
   "python", sg.executable, "-pdbdir", sg.temp_dir,
   "-relax_cycles", toString relax_cycles,
   "-seqs_per_struct", toString seqs_per_struct,
   "-temperature", temperature,
   "-outpdbdir", sg.outputs]

/-- Control flow of Sequence_Gen.sequence_design (source lines 172-252)
over an abstract file system: temp_exists models os.path.exists of the
temp dir, inputs_isdir models os.path.isdir of the input folder, and
subprocess_ok models subprocess.run finishing with exit code zero.  When
the input directory is missing the method logs and calls sys.exit before
copytree and before the external tool is launched; on a subprocess
failure the except clause logs and exits after the finally clause removed
the temp dir (the logging call itself passes an invalid file keyword to
logger.info and so raises, but the run terminates either way). -/
def Sequence_Gen.sequence_design (sg : Sequence_Gen)
    (temp_exists inputs_isdir subprocess_ok : Bool)
    (relax_cycles seqs_per_struct : Nat) (temperature : String) : List Effect :=
  Effect.remove_checkpoint ::
  (if temp_exists then [Effect.remove_temp_dir] else []) ++
  (if inputs_isdir = false then
    [Effect.log ("Source directory with PDB files from RFdiffusion not found: " ++ sg.inputs),
     Effect.terminate]
  else
    Effect.copytree ::
      Effect.launch (sg.command relax_cycles seqs_per_struct temperature) ::
      (if subprocess_ok then [Effect.remove_temp_dir]
       else [Effect.log "An unexpected error occurred",
             Effect.remove_temp_dir, Effect.terminate]))

/-- The conda run command built by af2_initial_guess (source lines
297-311). -/
def Structure_Prediction.command (sp : Structure_Prediction) : List String :=
  ["conda", "run", "-n", "binder_design", "--cwd", sp.temp_dir,
   "python", sp.executable, "-pdbdir", sp.temp_dir, "-outpdbdir", sp.outputs]

/-- Control flow of Structure_Prediction.af2_initial_guess (source lines
270-363) over an abstract file system, together with the stdout parse.
Returns the effect trace and the final self.results.  A missing input
directory terminates the run before copytree and the launch; a subprocess
failure or an exception in the parsing loop reaches the except clause,
whose handling terminates the run (again after the finally clause). -/
def Structure_Prediction.af2_initial_guess (sp : Structure_Prediction)
    (temp_exists inputs_isdir subprocess_ok : Bool)
    (stdout_lines : List String) : List Effect × Results :=
  let pre := Effect.remove_checkpoint ::
    (if temp_exists then [Effect.remove_temp_dir] else [])
  if inputs_isdir = false then
    (pre ++
      [Effect.log ("Source directory with PDB files from ProteinMPNN not found: " ++ sp.inputs),
       Effect.terminate], sp.results)
  else if subprocess_ok = false then
    (pre ++ [Effect.copytree, Effect.launch sp.command,
             Effect.log "An unexpected error occurred",
             Effect.remove_temp_dir, Effect.terminate], sp.results)
  else
    match af2_parse_lines ⟨none, sp.results⟩ stdout_lines with
    | .ok st =>
      (pre ++ [Effect.copytree, Effect.launch sp.command, Effect.remove_temp_dir], st.results)
    | .err st _ =>
      (pre ++ [Effect.copytree, Effect.launch sp.command,
               Effect.log "An unexpected error occurred",
               Effect.remove_temp_dir, Effect.terminate], st.results)

/-- Header search of the ddg score parsing (source lines 421-427): index
and stripped content of the first line whose strip starts with SCORE: . -/
def find_header : List String → Option (Nat × List Char)
  | [] => none
  | l :: rest =>
    let s := stripChars l.data
    if s.take 6 = "SCORE:".data then some (0, s)
    else (find_header rest).map (fun p => (p.1 + 1, p.2))

/-- The data-line test of source line 436: stripped nonempty and starting
with neither SEQUENCE: nor REMARK: . -/
def is_data_line (l : String) : Bool :=
  let s := stripChars l.data
  !s.isEmpty && !(s.take 9 == "SEQUENCE:".data) && !(s.take 7 == "REMARK:".data)

/-- Backward scan of source lines 432-438: the last line strictly after
the header index that passes the data-line test, stripped. -/
def last_data_line (lines : List String) (header_index : Nat) : Option (List Char) :=
  ((lines.drop (header_index + 1)).reverse.find? is_data_line).map
    (fun l => stripChars l.data)

/-- The score-file parsing of Structure_Prediction.ddg (source lines
408-458): first header line, last data line after it, whitespace split of
both, positional index of the ddg column in the header tokens, float
conversion of the same-position data token.  none on any failure: the
printed error leaves ddg_value as None. -/
def parse_score_file (lines : List String) : Option ℚ :=
  match find_header lines with
  | none => none
  | some (hidx, header) =>
    match last_data_line lines hidx with
    | none => none
    | some data =>
      match (splitWsChars header).findIdx? (fun t => t == "ddg".data) with
      | none => none
      | some ddg_index =>
        let values := splitWsChars data
        if h : ddg_index < values.length then pyFloatChars (values.get ⟨ddg_index, h⟩)
        else none

/-- Structure_Prediction.ddg (source lines 365-487) with the Rosetta run
and the score file abstracted: rosetta_ok models the subprocess finishing,
score_file the lines of score.sc when it exists.  Any Rosetta or parse
failure is printed and leaves ddg_value as None, so the method returns
with self.results untouched; only a successfully parsed value reaches the
final-result statement of lines 486-487, which subscripts the key
Design_ followed by the index (capital D) and raises an uncaught KeyError
when that key is absent from results. -/
def Structure_Prediction.ddg (sp : Structure_Prediction) (index : Nat)
    (rosetta_ok : Bool) (score_file : Option (List String)) :
    Except String Structure_Prediction :=
  if rosetta_ok = false then .ok sp
  else
    match score_file with
    | none => .ok sp
    | some lines =>
      match parse_score_file lines with
      | none => .ok sp
      | some ddg_value =>
        match resultsSet sp.results (s!"Design_{index}") "ddg" ddg_value with
        | none => .error (String.append "KeyError: " (s!"Design_{index}"))
        | some r => .ok { sp with results := r }

/-- The single-quote character as a one-character string. -/
def sq : String := String.mk [squote]

/-- The metric line of the specification examples: a flat dict literal
with the three AF2 metrics, braces and quotes assembled by code point. -/
def metric_line : String :=
  "\x7b" ++ sq ++ "plddt_binder" ++ sq ++ ": 85.1, " ++ sq ++ "pae_interaction" ++ sq ++
  ": 5.2, " ++ sq ++ "binder_aligned_rmsd" ++ sq ++ ": 0.4\x7d"

/-- The parse finished without an exception and left the record of the
given design exactly equal to the given record. -/
def outcome_populates (o : ParseOutcome) (d : String) (r : Record) : Bool :=
  match o with
  | .ok st => st.results.lookup d == some r
  | .err _ _ => false

/-- The parse raised an exception, and self.results at that moment equals
the given dictionary. -/
def outcome_aborted_with (o : ParseOutcome) (rs : Results) : Bool :=
  match o with
  | .ok _ => false
  | .err st _ => st.results == rs

/-- A fully populated passing record whose ddg is present with value -39,
above the -40 bar. -/
def sample_record : Record :=
  [("plddt_binder", dec 851 10), ("pae_interaction", dec 52 10),
   ("binder_aligned_rmsd", dec 4 10), ("ddg", -39)]

/-- A record missing pae_interaction and binder_aligned_rmsd. -/
def incomplete_record : Record :=
  [("plddt_binder", 99)]

/-- A two-design results state used in concrete checks. -/
def sample_sp : Structure_Prediction :=
  { Structure_Prediction.init "in" "out" "tmp" "x" 2 with
    results := [("design_0", sample_record), ("design_1", incomplete_record)] }

end BinderDesign

namespace BinderDesign

/-! Helper lemmas. -/

/-- Records with the same key in a results list with distinct keys are
equal. -/
theorem keys_nodup_unique {l : List (String × Record)}
    (hnd : (l.map Prod.fst).Nodup) {d : String} {r r' : Record}
    (h : (d, r) ∈ l) (h' : (d, r') ∈ l) : r = r' := by
  induction l with
  | nil => cases h
  | cons p rest ih =>
    rcases List.nodup_cons.mp hnd with ⟨hp, hrest⟩
    rcases List.mem_cons.mp h with h0 | h0 <;> rcases List.mem_cons.mp h' with h1 | h1
    · rw [← h0] at h1; exact congrArg Prod.snd h1.symm
    · exact absurd (List.mem_map.mpr ⟨(d, r'), h1, by rw [← h0]⟩) hp
    · exact absurd (List.mem_map.mpr ⟨(d, r), h0, by rw [← h1]⟩) hp
    · exact ih hrest h0 h1

/-- The id list accumulated by the filter loop. -/
theorem filter_designs_loop_snd (l : List (String × Record)) (n : Nat) (acc : List String) :
    (filter_designs_loop l n acc).2
      = acc ++ (l.filter (fun p => passes_filter p.2)).map Prod.fst := by
  induction l generalizing n acc with
  | nil => simp [filter_designs_loop]
  | cons p rest ih =>
    obtain ⟨design, r⟩ := p
    by_cases h : passes_filter r
    · simp [filter_designs_loop, h, ih]
    · simp [filter_designs_loop, h, ih]

/-- The count accumulated by the filter loop. -/
theorem filter_designs_loop_fst (l : List (String × Record)) (n : Nat) (acc : List String) :
    (filter_designs_loop l n acc).1
      = n + (l.filter (fun p => passes_filter p.2)).length := by
  induction l generalizing n acc with
  | nil => simp [filter_designs_loop]
  | cons p rest ih =>
    obtain ⟨design, r⟩ := p
    by_cases h : passes_filter r
    · simp [filter_designs_loop, h, ih]; omega
    · simp [filter_designs_loop, h, ih]

/-- Membership in the passing id list, for a results dict with distinct
keys, is exactly the per-record decision. -/
theorem mem_filter_designs_iff (sp : Structure_Prediction)
    (hnd : (sp.results.map Prod.fst).Nodup) (d : String) (r : Record)
    (hmem : (d, r) ∈ sp.results) :
    d ∈ (filter_designs sp).2.2 ↔ passes_filter r = true := by
  show d ∈ (filter_designs_loop sp.results 0 []).2 ↔ _
  rw [filter_designs_loop_snd]
  simp only [List.nil_append]
  constructor
  · intro h
    rcases List.mem_map.mp h with ⟨⟨d', r'⟩, hmf, hfst⟩
    rcases List.mem_filter.mp hmf with ⟨hmem', hp⟩
    have hd : d' = d := hfst
    subst hd
    rwa [keys_nodup_unique hnd hmem hmem']
  · intro hp
    exact List.mem_map.mpr ⟨(d, r), List.mem_filter.mpr ⟨hmem, hp⟩, rfl⟩

/-- The per-record decision, characterised for a record holding all three
AF2 metrics. -/
theorem passes_filter_iff (r : Record) (plddt pae rmsd : ℚ)
    (h1 : r.lookup "plddt_binder" = some plddt)
    (h2 : r.lookup "pae_interaction" = some pae)
    (h3 : r.lookup "binder_aligned_rmsd" = some rmsd) :
    passes_filter r = true ↔
      (80 < plddt ∧ pae < 10 ∧ rmsd < 1 ∧
        (r.lookup "ddg").all (fun ddg => decide (ddg < -40)) = true) := by
  unfold passes_filter
  rw [h1, h2, h3]
  cases hddg : r.lookup "ddg" with
  | none =>
    simp only [Option.all_none]
    by_cases ha : 80 < plddt <;> by_cases hb : pae < 10 <;> by_cases hc : rmsd < 1 <;>
      simp [ha, hb, hc]
  | some dg =>
    simp only [Option.all_some]
    by_cases ha : 80 < plddt <;> by_cases hb : pae < 10 <;> by_cases hc : rmsd < 1 <;>
      simp [ha, hb, hc]

/-- find? skips a leading run on which the test is false. -/
theorem find?_append_false {α : Type} (l1 l2 : List α) (p : α → Bool)
    (h : ∀ x ∈ l1, p x = false) : (l1 ++ l2).find? p = l2.find? p := by
  induction l1 with
  | nil => rfl
  | cons a t ih =>
    have ha := h a (by simp)
    simp only [List.cons_append, List.find?_cons, ha]
    exact ih (fun x hx => h x (by simp [hx]))

/-- The first header line of a file whose prefix has no header line. -/
theorem find_header_append (pre : List String) (hline : String) (rest : List String)
    (hpre : ∀ l ∈ pre, ¬ (stripChars l.data).take 6 = "SCORE:".data)
    (hh : (stripChars hline.data).take 6 = "SCORE:".data) :
    find_header (pre ++ hline :: rest) = some (pre.length, stripChars hline.data) := by
  induction pre with
  | nil => simp [find_header, hh]
  | cons a t ih =>
    have ha := hpre a (by simp)
    have ih2 := ih (fun l hl => hpre l (by simp [hl]))
    simp [find_header, ha, ih2]

/-- The backward data-line scan of a file of the given shape finds the
given data line when everything after it fails the data-line test. -/
theorem last_data_line_append (pre : List String) (hline : String)
    (mid : List String) (dline : String) (post : List String)
    (hpost : ∀ l ∈ post, is_data_line l = false)
    (hd : is_data_line dline = true) :
    last_data_line (pre ++ hline :: (mid ++ dline :: post)) pre.length
      = some (stripChars dline.data) := by
  unfold last_data_line
  have hdrop : (pre ++ hline :: (mid ++ dline :: post)).drop (pre.length + 1)
      = mid ++ dline :: post := by
    have : pre ++ hline :: (mid ++ dline :: post)
        = (pre ++ [hline]) ++ (mid ++ dline :: post) := by simp
    rw [this]
    have hlen : (pre ++ [hline]).length = pre.length + 1 := by simp
    rw [← hlen, List.drop_left]
  rw [hdrop]
  have hrev : (mid ++ dline :: post).reverse = post.reverse ++ dline :: mid.reverse := by
    simp
  rw [hrev, find?_append_false post.reverse _ is_data_line
    (fun x hx => hpost x (List.mem_reverse.mp hx))]
  simp [hd]

/-- Processing a non-dict line with a design token only rebinds the id. -/
theorem af2_process_token (st : AF2ParseState) (line : String) (d : String)
    (hd : find_design_token (stripChars line.data) = some d)
    (h : is_dict_line (stripChars line.data) = false) :
    af2_process_line st line = .ok ⟨some d, st.results⟩ := by
  simp [af2_process_line, hd, h]

/-- Processing a non-dict line without a design token changes nothing. -/
theorem af2_process_plain (st : AF2ParseState) (line : String)
    (hd : find_design_token (stripChars line.data) = none)
    (h : is_dict_line (stripChars line.data) = false) :
    af2_process_line st line = .ok st := by
  simp [af2_process_line, hd, h]

/-- A run of lines with neither dict shape nor design tokens is skipped
by the parse without any state change. -/
theorem af2_parse_skip (ls : List String) (st : AF2ParseState) (rest : List String)
    (h : ∀ l ∈ ls, is_dict_line (stripChars l.data) = false
        ∧ find_design_token (stripChars l.data) = none) :
    af2_parse_lines st (ls ++ rest) = af2_parse_lines st rest := by
  induction ls generalizing st with
  | nil => rfl
  | cons a t ih =>
    have ⟨h1, h2⟩ := h a (by simp)
    simp only [List.cons_append, af2_parse_lines, af2_process_plain st a h2 h1]
    exact ih st (fun l hl => h l (by simp [hl]))

/-- A run of non-dict lines leaves results unchanged; only the current
design id may move. -/
theorem af2_parse_nodict (ls : List String) (st : AF2ParseState) (rest : List String)
    (h : ∀ l ∈ ls, is_dict_line (stripChars l.data) = false) :
    ∃ dn, af2_parse_lines st (ls ++ rest) = af2_parse_lines ⟨dn, st.results⟩ rest := by
  induction ls generalizing st with
  | nil => exact ⟨st.design_number, rfl⟩
  | cons a t ih =>
    have h1 := h a (by simp)
    cases hd : find_design_token (stripChars a.data) with
    | none =>
      rcases ih st (fun l hl => h l (by simp [hl])) with ⟨dn, hdn⟩
      exact ⟨dn, by
        simp only [List.cons_append, af2_parse_lines, af2_process_plain st a hd h1]
        exact hdn⟩
    | some d =>
      rcases ih ⟨some d, st.results⟩ (fun l hl => h l (by simp [hl])) with ⟨dn, hdn⟩
      exact ⟨dn, by
        simp only [List.cons_append, af2_parse_lines, af2_process_token st a d hd h1]
        exact hdn⟩

/-- A trailing run of non-dict lines ends the parse without exception and
without further writes. -/
theorem af2_parse_nodict_nil (ls : List String) (st : AF2ParseState)
    (h : ∀ l ∈ ls, is_dict_line (stripChars l.data) = false) :
    ∃ dn, af2_parse_lines st ls = .ok ⟨dn, st.results⟩ := by
  rcases af2_parse_nodict ls st [] h with ⟨dn, hdn⟩
  rw [List.append_nil] at hdn
  exact ⟨dn, by rw [hdn]; rfl⟩

/-- The record reached by lookup after a resultsSet on a present key. -/
theorem lookup_map_dictSet (rs : Results) (d k : String) (v : ℚ) (r : Record)
    (h : rs.lookup d = some r) :
    (rs.map (fun p => if p.1 == d then (p.1, dictSet p.2 k v) else p)).lookup d
      = some (dictSet r k v) := by
  induction rs with
  | nil => cases h
  | cons p t ih =>
    obtain ⟨k0, r0⟩ := p
    rw [List.lookup_cons] at h
    cases hb : (d == k0) with
    | true =>
      rw [hb] at h
      injection h with h0
      subst h0
      have hb2 : (k0 == d) = true := beq_iff_eq.mpr (beq_iff_eq.mp hb).symm
      simp only [List.map_cons, if_pos hb2]
      rw [List.lookup_cons, hb]
    | false =>
      rw [hb] at h
      have hb2 : (k0 == d) = false := beq_eq_false_iff_ne.mpr (Ne.symm (beq_eq_false_iff_ne.mp hb))
      simp only [List.map_cons, hb2, Bool.false_eq_true, if_false, List.lookup_cons, hb]
      exact ih h

/-- Python results[d][k] = v on a present key succeeds and the record of
d afterwards shows the update. -/
theorem resultsSet_step (rs : Results) (d k : String) (v : ℚ) (r : Record)
    (h : rs.lookup d = some r) :
    ∃ rs1, resultsSet rs d k v = some rs1 ∧ rs1.lookup d = some (dictSet r k v) :=
  ⟨_, by unfold resultsSet; rw [h], lookup_map_dictSet rs d k v r h⟩

/-- Processing the concrete metric line from a state whose current design
id is design_3 with a still-empty record writes exactly the three metric
values into that record. -/
theorem af2_process_metric (rs : Results)
    (h : rs.lookup "design_3" = some ([] : Record)) :
    ∃ rs3, af2_process_line ⟨some "design_3", rs⟩ metric_line = .ok ⟨some "design_3", rs3⟩
      ∧ rs3.lookup "design_3"
          = some [("plddt_binder", dec 851 10), ("pae_interaction", dec 52 10),
                  ("binder_aligned_rmsd", dec 4 10)] := by
  have hstrip : stripChars metric_line.data = metric_line.data := by decide
  have hfind : find_design_token metric_line.data = none := by decide
  have hdict : is_dict_line metric_line.data = true := by decide
  have hpd : parse_py_dict metric_line.data
      = some [("plddt_binder", dec 851 10), ("pae_interaction", dec 52 10),
              ("binder_aligned_rmsd", dec 4 10)] := by decide
  have hl1 : List.lookup "plddt_binder"
      [("plddt_binder", dec 851 10), ("pae_interaction", dec 52 10),
       ("binder_aligned_rmsd", dec 4 10)] = some (dec 851 10) := rfl
  have hl2 : List.lookup "pae_interaction"
      [("plddt_binder", dec 851 10), ("pae_interaction", dec 52 10),
       ("binder_aligned_rmsd", dec 4 10)] = some (dec 52 10) := rfl
  have hl3 : List.lookup "binder_aligned_rmsd"
      [("plddt_binder", dec 851 10), ("pae_interaction", dec 52 10),
       ("binder_aligned_rmsd", dec 4 10)] = some (dec 4 10) := rfl
  obtain ⟨rs1, e1, f1⟩ := resultsSet_step rs "design_3" "plddt_binder" (dec 851 10) [] h
  obtain ⟨rs2, e2, f2⟩ := resultsSet_step rs1 "design_3" "pae_interaction" (dec 52 10) _ f1
  obtain ⟨rs3, e3, f3⟩ := resultsSet_step rs2 "design_3" "binder_aligned_rmsd" (dec 4 10) _ f2
  refine ⟨rs3, ?_, f3⟩
  simp only [af2_process_line, hstrip, hfind, hdict, hpd, hl1, hl2, hl3, e1, e2, e3,
    if_true]

/-! Claim theorems. -/

/-- C1: for every design record in the results set (with results keys
distinct, as construction guarantees) holding the three AF2 metrics,
filter_designs marks the design as passing if and only if plddt_binder
exceeds 80, pae_interaction is below 10, binder_aligned_rmsd is below 1,
and either no ddg field is present or ddg is below -40; in particular a
record with ddg present and at least -40 is excluded even when the other
three metrics pass. -/
theorem C1_filter_pass_iff (sp : Structure_Prediction)
    (hnd : (sp.results.map Prod.fst).Nodup) (d : String) (r : Record)
    (hmem : (d, r) ∈ sp.results) (plddt pae rmsd : ℚ)
    (h1 : r.lookup "plddt_binder" = some plddt)
    (h2 : r.lookup "pae_interaction" = some pae)
    (h3 : r.lookup "binder_aligned_rmsd" = some rmsd) :
    (d ∈ (filter_designs sp).2.2 ↔
      (80 < plddt ∧ pae < 10 ∧ rmsd < 1 ∧
        (r.lookup "ddg").all (fun ddg => decide (ddg < -40)) = true))
    ∧ (∀ ddg, r.lookup "ddg" = some ddg → -40 ≤ ddg →
        d ∉ (filter_designs sp).2.2) := by
  have hmain := (mem_filter_designs_iff sp hnd d r hmem).trans
    (passes_filter_iff r plddt pae rmsd h1 h2 h3)
  refine ⟨hmain, fun ddg hd hge hmem2 => ?_⟩
  have hc := hmain.mp hmem2
  rw [hd] at hc
  simp only [Option.all_some, decide_eq_true_eq] at hc
  exact absurd hc.2.2.2 (not_lt.mpr hge)

/-- Witness for C1 at a concrete record whose three metrics pass but
whose ddg is -39: the design is excluded. -/
theorem C1_filter_pass_iff_witness :
    (("design_0" ∈ (filter_designs sample_sp).2.2 ↔
      (80 < dec 851 10 ∧ dec 52 10 < 10 ∧ dec 4 10 < 1 ∧
        (sample_record.lookup "ddg").all (fun ddg => decide (ddg < -40)) = true)))
    ∧ "design_0" ∉ (filter_designs sample_sp).2.2 :=
  ⟨(C1_filter_pass_iff sample_sp (by decide) "design_0" sample_record (by decide)
      (dec 851 10) (dec 52 10) (dec 4 10) (by decide) (by decide) (by decide)).1,
   (C1_filter_pass_iff sample_sp (by decide) "design_0" sample_record (by decide)
      (dec 851 10) (dec 52 10) (dec 4 10) (by decide) (by decide) (by decide)).2
      (-39) (by decide) (by decide)⟩

/-- C6: a design record missing at least one of the three AF2 metrics is
excluded whatever the present fields hold, and the per-design decision is
an ordinary false (the KeyError is caught by the except clause, which
continues with the next design rather than raising). -/
theorem C6_missing_metric_excluded (sp : Structure_Prediction)
    (hnd : (sp.results.map Prod.fst).Nodup) (d : String) (r : Record)
    (hmem : (d, r) ∈ sp.results)
    (hmiss : r.lookup "plddt_binder" = none ∨ r.lookup "pae_interaction" = none
      ∨ r.lookup "binder_aligned_rmsd" = none) :
    passes_filter r = false ∧ d ∉ (filter_designs sp).2.2 := by
  have hpf : passes_filter r = false := by
    unfold passes_filter
    rcases hmiss with h | h | h
    · rw [h]
    · rw [h]
      cases r.lookup "plddt_binder" <;> simp
    · rw [h]
      cases r.lookup "plddt_binder" <;> cases r.lookup "pae_interaction" <;> simp
  refine ⟨hpf, fun hmem2 => ?_⟩
  rw [(mem_filter_designs_iff sp hnd d r hmem)] at hmem2
  rw [hpf] at hmem2
  cases hmem2

/-- Witness for C6 at a concrete record holding only plddt_binder. -/
theorem C6_missing_metric_excluded_witness :
    passes_filter incomplete_record = false
    ∧ "design_1" ∉ (filter_designs sample_sp).2.2 :=
  C6_missing_metric_excluded sample_sp (by decide) "design_1" incomplete_record
    (by decide) (Or.inr (Or.inl (by decide)))

/-- C8: filter_designs reads self.results and writes nothing, so running
it twice over the unchanged set returns the identical triple of passing
count, rate denominator and passing-id list, and no design record is
modified. -/
theorem C8_filter_idempotent (sp : Structure_Prediction) :
    (filter_designs_run sp).1 = sp
    ∧ (filter_designs_run ((filter_designs_run sp).1)).2 = (filter_designs_run sp).2 :=
  ⟨rfl, rfl⟩

/-- C4: on every score file whose first header line is the given header
and whose last data line after it (scanning backward past non-data lines)
is the given data line, the parser finds the ddg column at its positional
index in the whitespace-split header and converts the same-position data
token, yielding ddg = -45.2 (the rational -452/10). -/
theorem C4_score_well_formed (pre mid post : List String)
    (hpre : ∀ l ∈ pre, ¬ (stripChars l.data).take 6 = "SCORE:".data)
    (hpost : ∀ l ∈ post, is_data_line l = false) :
    parse_score_file
        (pre ++ "SCORE: total_score ddg rmsd" :: (mid ++ "SCORE: 10.0 -45.2 0.8" :: post))
      = some (dec (-452) 10) := by
  have h1 := find_header_append pre "SCORE: total_score ddg rmsd"
      (mid ++ "SCORE: 10.0 -45.2 0.8" :: post) hpre (by decide)
  have h2 := last_data_line_append pre "SCORE: total_score ddg rmsd" mid
      "SCORE: 10.0 -45.2 0.8" post hpost (by decide)
  unfold parse_score_file
  simp only [h1, h2]
  decide

/-- Witness for C4 at the two-line score file of the specification. -/
theorem C4_score_well_formed_witness :
    parse_score_file ["SCORE: total_score ddg rmsd", "SCORE: 10.0 -45.2 0.8"]
      = some (dec (-452) 10) :=
  C4_score_well_formed [] [] [] (by simp) (by simp)

/-- C7: whenever the score-file parse fails -- no header line, no data
line after the header, no ddg column among the header tokens, or a data
token that does not convert to a number -- the parser yields none and the
ddg method returns with self.results untouched instead of crashing (the
record keeps no ddg field). -/
theorem C7_parse_failure_no_crash (lines : List String) (sp : Structure_Prediction)
    (index : Nat)
    (hfail :
      find_header lines = none
      ∨ (∃ p, find_header lines = some p ∧ last_data_line lines p.1 = none)
      ∨ (∃ p, find_header lines = some p ∧
          (splitWsChars p.2).findIdx? (fun t => t == "ddg".data) = none)
      ∨ (∃ p data ddg_index, find_header lines = some p ∧
          last_data_line lines p.1 = some data ∧
          (splitWsChars p.2).findIdx? (fun t => t == "ddg".data) = some ddg_index ∧
          ∀ h : ddg_index < (splitWsChars data).length,
            pyFloatChars ((splitWsChars data).get ⟨ddg_index, h⟩) = none)) :
    parse_score_file lines = none ∧ sp.ddg index true (some lines) = .ok sp := by
  have hparse : parse_score_file lines = none := by
    unfold parse_score_file
    rcases hfail with h | ⟨⟨hidx, header⟩, h1, h2⟩ | ⟨⟨hidx, header⟩, h1, h2⟩ |
      ⟨⟨hidx, header⟩, data, ddgi, h1, h2, h3, h4⟩
    · rw [h]
    · simp only [h1, h2]
    · simp only [h1]
      cases hld : last_data_line lines hidx with
      | none => rfl
      | some data => simp only [h2]
    · simp only [h1, h2, h3]
      split
      · exact h4 (by assumption)
      · rfl
  refine ⟨hparse, ?_⟩
  simp [Structure_Prediction.ddg, hparse]

/-- Witness for C7 at a file with no header line. -/
theorem C7_parse_failure_no_crash_witness :
    parse_score_file ["hello"] = none
    ∧ sample_sp.ddg 0 true (some ["hello"]) = .ok sample_sp :=
  C7_parse_failure_no_crash ["hello"] sample_sp 0 (Or.inl (by decide))

/-- C3: the claim that a successfully parsed ddg value is stored into the
pre-created record design_N is violated by the code: the final-result
statement of the ddg method subscripts the key Design_N with a capital D,
a key results_dict never creates, so the method raises an uncaught
KeyError instead of storing the value.  At the failing input below the
score file parses to -45.2, the record design_0 exists and Design_0 does
not, and the method returns the KeyError. -/
theorem C3_ddg_write_uses_wrong_key :
    parse_score_file ["SCORE: total_score ddg rmsd", "SCORE: 10.0 -45.2 0.8"]
        = some (dec (-452) 10)
    ∧ (results_dict 4).lookup "design_0" = some []
    ∧ (results_dict 4).lookup "Design_0" = none
    ∧ (Structure_Prediction.init "in" "out" "tmp" "x" 4).ddg 0 true
        (some ["SCORE: total_score ddg rmsd", "SCORE: 10.0 -45.2 0.8"])
        = .error "KeyError: Design_0" := by
  refine ⟨by decide, by decide, by decide, ?_⟩
  rfl

/-- C2 counterexample: on the concrete stream whose only line is the
metric dict literal, the stdout parse aborts with an exception (the
design-id variable is still unbound when the metric line is handled) and
the run terminates in the enclosing handler, refuting the claim that the
parse neither aborts nor terminates the run; the records are indeed left
unpopulated. -/
theorem C2_counterexample_parse_aborts :
    af2_parse_lines ⟨none, results_dict 2⟩ [metric_line]
        = .err ⟨none, results_dict 2⟩ "NameError: design_number"
    ∧ ((Structure_Prediction.init "i" "o" "t" "x" 2).af2_initial_guess
        false true true [metric_line]).1.getLast? = some Effect.terminate
    ∧ ((Structure_Prediction.init "i" "o" "t" "x" 2).af2_initial_guess
        false true true [metric_line]).2 = results_dict 2 :=
  ⟨by decide, by decide, by decide⟩

/-- C2 (amended): on every stdout stream in which a metric dict line
appears before any line carrying a design token, every design record is
left unpopulated, but the parse is not silent: it aborts with an
exception at that metric line, and the enclosing handler terminates the
run. -/
theorem C2_metric_before_id_aborts (sp : Structure_Prediction) (temp_exists : Bool)
    (pre : List String) (dictline : String) (post : List String)
    (hpre : ∀ l ∈ pre, is_dict_line (stripChars l.data) = false
        ∧ find_design_token (stripChars l.data) = none)
    (hdict : is_dict_line (stripChars dictline.data) = true)
    (hnod : find_design_token (stripChars dictline.data) = none) :
    outcome_aborted_with (af2_parse_lines ⟨none, sp.results⟩ (pre ++ dictline :: post))
        sp.results = true
    ∧ (sp.af2_initial_guess temp_exists true true (pre ++ dictline :: post)).2 = sp.results
    ∧ (sp.af2_initial_guess temp_exists true true (pre ++ dictline :: post)).1.getLast?
        = some Effect.terminate := by
  have hb : outcome_aborted_with (af2_process_line ⟨none, sp.results⟩ dictline)
      sp.results = true := by
    unfold af2_process_line
    simp only [hnod, hdict, if_true]
    split
    · simp [outcome_aborted_with]
    · split
      · simp [outcome_aborted_with]
      · simp [outcome_aborted_with]
  cases hx : af2_process_line ⟨none, sp.results⟩ dictline with
  | ok st1 => rw [hx] at hb; simp [outcome_aborted_with] at hb
  | err st1 msg =>
    rw [hx] at hb
    have hres : st1.results = sp.results := by
      simpa [outcome_aborted_with] using hb
    have herr : af2_parse_lines ⟨none, sp.results⟩ (pre ++ dictline :: post)
        = .err st1 msg := by
      rw [af2_parse_skip pre _ _ hpre]
      simp only [af2_parse_lines, hx]
    refine ⟨by rw [herr]; simp [outcome_aborted_with, hres], ?_, ?_⟩
    · simp [Structure_Prediction.af2_initial_guess, herr, hres]
    · simp only [Structure_Prediction.af2_initial_guess, herr]
      cases temp_exists <;> rfl

/-- Witness for the amended C2 at the one-line metric stream. -/
theorem C2_metric_before_id_aborts_witness :
    outcome_aborted_with (af2_parse_lines ⟨none, sample_sp.results⟩ [metric_line])
        sample_sp.results = true
    ∧ (sample_sp.af2_initial_guess false true true [metric_line]).2 = sample_sp.results
    ∧ (sample_sp.af2_initial_guess false true true [metric_line]).1.getLast?
        = some Effect.terminate :=
  C2_metric_before_id_aborts sample_sp false [] metric_line []
    (by simp) (by decide) (by decide)

/-- C5: on every stdout stream formed by any prefix free of metric lines,
then a non-metric line whose first design token is design_3, then lines
with neither tokens nor metrics, then the metric line with the three
values 85.1, 5.2 and 0.4, then trailing non-metric lines -- so that
design_3 is the design id most recently seen above the metric line -- the
parse finishes and populates the record design_3 with exactly those three
values. -/
theorem C5_positional_attribution (sp : Structure_Prediction)
    (pre : List String) (idline : String) (mid post : List String)
    (hpre : ∀ l ∈ pre, is_dict_line (stripChars l.data) = false)
    (hid : find_design_token (stripChars idline.data) = some "design_3")
    (hidnd : is_dict_line (stripChars idline.data) = false)
    (hmid : ∀ l ∈ mid, is_dict_line (stripChars l.data) = false
        ∧ find_design_token (stripChars l.data) = none)
    (hpost : ∀ l ∈ post, is_dict_line (stripChars l.data) = false)
    (hkey : sp.results.lookup "design_3" = some ([] : Record)) :
    outcome_populates (af2_parse_lines ⟨none, sp.results⟩
        (pre ++ idline :: (mid ++ metric_line :: post)))
      "design_3"
      [("plddt_binder", dec 851 10), ("pae_interaction", dec 52 10),
       ("binder_aligned_rmsd", dec 4 10)] = true := by
  obtain ⟨dn1, hskip⟩ := af2_parse_nodict pre ⟨none, sp.results⟩
    (idline :: (mid ++ metric_line :: post)) hpre
  rw [hskip]
  simp only [af2_parse_lines, af2_process_token ⟨dn1, sp.results⟩ idline "design_3" hid hidnd]
  rw [af2_parse_skip mid ⟨some "design_3", sp.results⟩ (metric_line :: post) hmid]
  obtain ⟨rs3, hm, hl⟩ := af2_process_metric sp.results hkey
  simp only [af2_parse_lines, hm]
  obtain ⟨dn2, hend⟩ := af2_parse_nodict_nil post ⟨some "design_3", rs3⟩ hpost
  rw [hend]
  simp [outcome_populates, hl]

/-- Witness for C5 at the two-line stream of the specification. -/
theorem C5_positional_attribution_witness :
    outcome_populates (af2_parse_lines
        ⟨none, (Structure_Prediction.init "i" "o" "t" "x" 4).results⟩
        ["design_3", metric_line])
      "design_3"
      [("plddt_binder", dec 851 10), ("pae_interaction", dec 52 10),
       ("binder_aligned_rmsd", dec 4 10)] = true :=
  C5_positional_attribution (Structure_Prediction.init "i" "o" "t" "x" 4)
    [] "design_3" [] [] (by simp) (by decide) (by decide) (by simp) (by simp) (by decide)

/-- C9: when the declared input directory is missing at invocation, each
of the two wrappers logs the unrecoverable error and terminates the run
before the external tool is launched: no launch effect occurs in the
trace and the trace ends with the terminating exit. -/
theorem C9_missing_input_dir_terminates (sg : Sequence_Gen) (sp : Structure_Prediction)
    (temp_exists temp_exists2 subprocess_ok subprocess_ok2 : Bool)
    (relax_cycles seqs_per_struct : Nat) (temperature : String)
    (stdout_lines : List String) (inputs_isdir : Bool) (h : inputs_isdir = false) :
    (∀ cmd, Effect.launch cmd ∉
        sg.sequence_design temp_exists inputs_isdir subprocess_ok
          relax_cycles seqs_per_struct temperature)
    ∧ (sg.sequence_design temp_exists inputs_isdir subprocess_ok
        relax_cycles seqs_per_struct temperature).getLast? = some Effect.terminate
    ∧ (∀ cmd, Effect.launch cmd ∉
        (sp.af2_initial_guess temp_exists2 inputs_isdir subprocess_ok2 stdout_lines).1)
    ∧ (sp.af2_initial_guess temp_exists2 inputs_isdir subprocess_ok2 stdout_lines).1.getLast?
        = some Effect.terminate := by
  subst h
  refine ⟨?_, ?_, ?_, ?_⟩ <;>
    cases temp_exists <;> cases temp_exists2 <;>
      simp [Sequence_Gen.sequence_design, Structure_Prediction.af2_initial_guess]

/-- Witness for C9 at concrete wrappers with a missing input directory. -/
theorem C9_missing_input_dir_terminates_witness :
    (Effect.launch ["x"] ∉
        (Sequence_Gen.mk "a" "b" "c" "d").sequence_design false false false 1 1 "0.1")
    ∧ ((Sequence_Gen.mk "a" "b" "c" "d").sequence_design false false false 1 1 "0.1").getLast?
        = some Effect.terminate
    ∧ (Effect.launch ["x"] ∉ (sample_sp.af2_initial_guess false false false []).1)
    ∧ ((sample_sp.af2_initial_guess false false false []).1).getLast?
        = some Effect.terminate :=
  ⟨(C9_missing_input_dir_terminates (Sequence_Gen.mk "a" "b" "c" "d") sample_sp
      false false false false 1 1 "0.1" [] false rfl).1 ["x"],
   (C9_missing_input_dir_terminates (Sequence_Gen.mk "a" "b" "c" "d") sample_sp
      false false false false 1 1 "0.1" [] false rfl).2.1,
   (C9_missing_input_dir_terminates (Sequence_Gen.mk "a" "b" "c" "d") sample_sp
      false false false false 1 1 "0.1" [] false rfl).2.2.1 ["x"],
   (C9_missing_input_dir_terminates (Sequence_Gen.mk "a" "b" "c" "d") sample_sp
      false false false false 1 1 "0.1" [] false rfl).2.2.2⟩

/-- C10: constructing a Structure_Prediction object builds a results dict
of exactly design_num records keyed design_0 up to design_(n-1), each
initially empty, and the rate denominator logged by filter_designs is the
stored design_num whatever the results dict holds by then. -/
theorem C10_init_results (input_folder output_folder temp_dir executable : String) (n : Nat) :
    (Structure_Prediction.init input_folder output_folder temp_dir executable n).results
        = (List.range n).map (fun index => (s!"design_{index}", ([] : Record)))
    ∧ (Structure_Prediction.init input_folder output_folder temp_dir executable n).results.length = n
    ∧ ∀ rs : Results,
        (filter_designs { Structure_Prediction.init input_folder output_folder
            temp_dir executable n with results := rs }).2.1 = n := by
  refine ⟨rfl, ?_, fun _ => rfl⟩
  simp [Structure_Prediction.init, results_dict]

end BinderDesign
